import Mathlib

/-!
Shallow embedding of the Mammut Mastodon client kernel (`src/lib.rs`):
the response-decoding kernel, the credential bundle, header attachment,
and the URL construction of every endpoint in the catalog.

Response bodies are modelled after JSON parsing, as JSON values; the
serde decoders derived for the structs of `lib.rs` are modelled as
functions `Json → Except String _` whose error values record the kind of
failure (serde's semantic errors name the struct they expected).
Positional (sequence-shaped) decoding of structs is not modelled: array
bodies are treated as type errors, and no theorem below depends on the
behaviour of a struct decoder on an array body.
-/

/-- A JSON value, the shape `serde_json` parses response bodies into. -/
inductive Json where
  | null
  | bool (b : Bool)
  | num (n : Int)
  | str (s : String)
  | arr (xs : List Json)
  | obj (fs : List (String × Json))

instance {ε α : Type} [DecidableEq ε] [DecidableEq α] : DecidableEq (Except ε α) := fun x y =>
  match x, y with
  | .ok a, .ok b =>
    if h : a = b then .isTrue (by rw [h]) else .isFalse (by intro hc; injection hc; contradiction)
  | .error a, .error b =>
    if h : a = b then .isTrue (by rw [h]) else .isFalse (by intro hc; injection hc; contradiction)
  | .ok _, .error _ => .isFalse (by intro hc; injection hc)
  | .error _, .ok _ => .isFalse (by intro hc; injection hc)

/-- First-match field lookup in a JSON object, as serde reads struct fields. -/
def lookupField : List (String × Json) → String → Option Json
  | [], _ => none
  | (k, v) :: rest, key => if k = key then some v else lookupField rest key

/-- `ApiError` from `lib.rs`: `{ error: String, error_description: Option<String> }`. -/
structure ApiError where
  error : String
  error_description : Option String
deriving DecidableEq

/-- The derived `Deserialize` for `ApiError`: an object with a required
string field `error` and an optional string field `error_description`
(absent or `null` decode as `None`); unknown fields are ignored;
non-object bodies are type errors naming the struct. -/
def decodeApiError : Json → Except String ApiError
  | .obj fs =>
    match lookupField fs "error" with
    | some (.str e) =>
      match lookupField fs "error_description" with
      | some (.str d) => .ok ⟨e, some d⟩
      | some .null => .ok ⟨e, none⟩
      | none => .ok ⟨e, none⟩
      | some _ => .error "invalid type for field error_description, expected struct ApiError"
    | some _ => .error "invalid type for field error, expected struct ApiError"
    | none => .error "missing field error, expected struct ApiError"
  | _ => .error "invalid type, expected struct ApiError"

/-- The `Error` enum of `lib.rs`. Payloads of the transport variants
(`Http`, `Io`, `Url`) play no role in any claim and are dropped; the
`Serde` payload is the modelled serde error message. -/
inductive Error where
  | api (e : ApiError)
  | serde (msg : String)
  | http
  | ioError
  | clientIdRequired
  | clientSecretRequired
  | accessTokenRequired
  | url
deriving DecidableEq

/-- The response-decoding kernel shared by `methods!`, `route!` and
`new_status` in `lib.rs`:

```
if let Ok(t) = json::from_slice(&vec) { Ok(t) }
else { Err(Error::Api(json::from_slice(&vec)?)) }
```

`decT` stands for `json::from_slice` at the expected entity type; the
second decode is `json::from_slice` at `ApiError`, whose failure is
propagated by `?` through `From<SerdeError>` as `Error::Serde`. -/
def handleResponse {T : Type} (decT : Json → Except String T) (body : Json) :
    Except Error T :=
  match decT body with
  | .ok t => .ok t
  | .error _ =>
    match decodeApiError body with
    | .ok a => .error (.api a)
    | .error e => .error (.serde e)

/-- Modelled from the spec: the `Instance` entity (§3, "Instance: uri,
title, description, email, version") — the `entities` module referenced
by `lib.rs` is not among the provided sources. Five required string
fields. -/
structure Instance where
  uri : String
  title : String
  description : String
  email : String
  version : String
deriving DecidableEq

/-- Modelled from the spec: serde-style decoding of `Instance` — an
object with the five required string fields, unknown fields ignored,
non-object bodies type errors naming the struct. -/
def decodeInstance (j : Json) : Except String Instance :=
  match j with
  | .obj fs =>
    match lookupField fs "uri", lookupField fs "title", lookupField fs "description",
        lookupField fs "email", lookupField fs "version" with
    | some (.str u), some (.str t), some (.str d), some (.str e), some (.str v) =>
      .ok ⟨u, t, d, e, v⟩
    | _, _, _, _, _ => .error "invalid field, expected struct Instance"
  | _ => .error "invalid type, expected struct Instance"

/-- A response body that is a valid `Instance` and also carries an
`error` field, so it decodes as `ApiError` too. -/
def bothShapesBody : Json :=
  .obj [("uri", .str "https://x"), ("title", .str "X"), ("description", .str "d"),
        ("email", .str "e@x"), ("version", .str "1"), ("error", .str "boom")]

/-- C1: the kernel first attempts to decode the body as the expected
entity and returns it on success; a body that also decodes as `ApiError`
is still returned as the expected entity. -/
theorem handleResponse_success_first {T : Type} (decT : Json → Except String T)
    (body : Json) (t : T) (h : decT body = .ok t) :
    handleResponse decT body = .ok t := by
  unfold handleResponse
  rw [h]

/-- Witness for C1: a concrete body that decodes both as `Instance` and
as `ApiError` is returned by the kernel as the `Instance`. -/
theorem handleResponse_success_first_witness :
    decodeApiError bothShapesBody = .ok ⟨"boom", none⟩ ∧
    handleResponse decodeInstance bothShapesBody =
      .ok ⟨"https://x", "X", "d", "e@x", "1"⟩ := by
  refine ⟨by decide, ?_⟩
  exact handleResponse_success_first decodeInstance bothShapesBody _ (by decide)

/-- Counterexample to C2 as stated: on a body failing both decodes, the
kernel's `SERDE` error carries the failure of the second decode attempt
(the `ApiError` one), not the first (the expected-entity one). -/
theorem serde_error_not_first_counterexample :
    decodeInstance (Json.str "oops") =
      .error "invalid type, expected struct Instance" ∧
    handleResponse decodeInstance (Json.str "oops") ≠
      .error (.serde "invalid type, expected struct Instance") ∧
    handleResponse decodeInstance (Json.str "oops") =
      .error (.serde "invalid type, expected struct ApiError") := by
  refine ⟨by decide, by decide, by decide⟩

/-- C2 amended: when the expected-entity decode fails, a body that
decodes as `ApiError` yields `API` wrapping it, and a body failing both
yields `SERDE` carrying the error of the second decode attempt (the
`ApiError` one). -/
theorem handleResponse_failure {T : Type} (decT : Json → Except String T)
    (body : Json) (e : String) (hT : decT body = .error e) :
    (∀ a, decodeApiError body = .ok a →
      handleResponse decT body = .error (.api a)) ∧
    (∀ e2, decodeApiError body = .error e2 →
      handleResponse decT body = .error (.serde e2)) := by
  constructor
  · intro a ha
    unfold handleResponse
    rw [hT, ha]
  · intro e2 he
    unfold handleResponse
    rw [hT, he]

/-- Witness for the amended C2, at a concrete body failing both decodes
and at one decoding as `ApiError`. -/
theorem handleResponse_failure_witness :
    handleResponse decodeInstance (Json.str "oops") =
      .error (.serde "invalid type, expected struct ApiError") ∧
    handleResponse decodeInstance (Json.obj [("error", .str "denied")]) =
      .error (.api ⟨"denied", none⟩) := by
  constructor
  · exact (handleResponse_failure decodeInstance (Json.str "oops")
      "invalid type, expected struct Instance" (by decide)).2 _ (by decide)
  · exact (handleResponse_failure decodeInstance (Json.obj [("error", .str "denied")])
      "invalid field, expected struct Instance" (by decide)).1 _ (by decide)

/-- `Data` from `lib.rs`: the persistable credential bundle
`{ base, client_id, client_secret, redirect, token }`, all strings. -/
structure Data where
  base : String
  client_id : String
  client_secret : String
  redirect : String
  token : String
deriving DecidableEq

/-- The derived `Serialize` for `Data`: a JSON object with the five
fields in declaration order. -/
def dataToJson (d : Data) : Json :=
  .obj [("base", .str d.base), ("client_id", .str d.client_id),
        ("client_secret", .str d.client_secret), ("redirect", .str d.redirect),
        ("token", .str d.token)]

/-- The derived `Deserialize` for `Data`: an object with the five
required string fields, unknown fields ignored, non-object bodies type
errors naming the struct. -/
def decodeData (j : Json) : Except String Data :=
  match j with
  | .obj fs =>
    match lookupField fs "base", lookupField fs "client_id",
        lookupField fs "client_secret", lookupField fs "redirect",
        lookupField fs "token" with
    | some (.str b), some (.str ci), some (.str cs), some (.str r), some (.str t) =>
      .ok ⟨b, ci, cs, r, t⟩
    | _, _, _, _, _ => .error "invalid field, expected struct Data"
  | _ => .error "invalid type, expected struct Data"

/-- The field names of a JSON object (empty for non-objects). -/
def jsonKeys : Json → List String
  | .obj fs => fs.map (fun f => f.1)
  | _ => []

/-- HTTP methods used by the client (`methods![get, post, delete,]`). -/
inductive Method where
  | get
  | post
  | delete
deriving DecidableEq

/-- The outgoing request the kernel hands to the HTTP transport:
method, absolute URL, and header list. Request bodies (form, JSON,
multipart) play no role in any claim and are not modelled. -/
structure Request where
  method : Method
  url : String
  headers : List (String × String)
deriving DecidableEq

/-- The `Mastodon` client value: its header map and credential bundle.
The `reqwest::Client` handle carries no observable state and is not
modelled. -/
structure Mastodon where
  headers : List (String × String)
  data : Data

/-- `Mastodon::from_data`: a fresh header map with the single entry
`Authorization: Bearer <token>` (typed-header `set` keeps one value per
header name). The fallible `reqwest::Client::new()` is elided. -/
def Mastodon.fromData (d : Data) : Mastodon :=
  { headers := [("Authorization", "Bearer " ++ d.token)], data := d }

/-- `Mastodon::route`: base string followed by the given path. -/
def Mastodon.route (m : Mastodon) (url : String) : String :=
  m.data.base ++ url

/-- Rust's `String::pop`: drop the last character (identity on `""`). -/
def rustPop (s : String) : String :=
  String.mk s.data.dropLast

/-- UTF-8 bytes of a character, as the encoder percent-escapes them. -/
def utf8Bytes (c : Char) : List Nat :=
  let n := c.toNat
  if n < 0x80 then [n]
  else if n < 0x800 then
    [0xC0 ||| (n >>> 6), 0x80 ||| (n &&& 0x3F)]
  else if n < 0x10000 then
    [0xE0 ||| (n >>> 12), 0x80 ||| ((n >>> 6) &&& 0x3F), 0x80 ||| (n &&& 0x3F)]
  else
    [0xF0 ||| (n >>> 18), 0x80 ||| ((n >>> 12) &&& 0x3F),
     0x80 ||| ((n >>> 6) &&& 0x3F), 0x80 ||| (n &&& 0x3F)]

/-- Uppercase hexadecimal digit for a value below 16. -/
def hexDigitChar (n : Nat) : Char :=
  if n < 10 then Char.ofNat (48 + n) else Char.ofNat (55 + n)

/-- `%XX` escape of one byte. -/
def percentByte (b : Nat) : String :=
  String.mk ['%', hexDigitChar (b / 16), hexDigitChar (b % 16)]

/-- Bytes kept verbatim by `form_urlencoded`: ASCII alphanumerics and
`*`, `-`, `.`, `_`. -/
def isFormSafe (c : Char) : Bool :=
  c.isAlphanum || c = '*' || c = '-' || c = '.' || c = '_'

/-- One character under application/x-www-form-urlencoded serialization,
as the `url` crate's `form_urlencoded` serializer emits it: safe bytes
verbatim, space as `+`, everything else as percent-escaped UTF-8. -/
def encodeChar (c : Char) : String :=
  if isFormSafe c then String.mk [c]
  else if c = ' ' then "+"
  else String.join ((utf8Bytes c).map percentByte)

/-- A whole component under form-urlencoded serialization. -/
def encodeComp (s : String) : String :=
  String.join (s.data.map encodeChar)

/-- Join pieces with `&`, no trailing separator. -/
def joinAmp : List String → String
  | [] => ""
  | [x] => x
  | x :: xs => x ++ "&" ++ joinAmp xs

/-- The query string `Url::parse_with_params` appends for a pair list:
each name and value form-urlencoded, pairs joined with `&`. -/
def formUrlencode (ps : List (String × String)) : String :=
  joinAmp (ps.map (fun p => encodeComp p.1 ++ "=" ++ encodeComp p.2))

/-- The parameter vector built by `Mastodon::statuses`: `only_media` and
`exclude_replies` pushed as `"1"` only when true, `since_id` pushed when
present. -/
def statusesParams (om er : Bool) (since : Option Int) : List (String × String) :=
  (if om then [("only_media", "1")] else []) ++
  (if er then [("exclude_replies", "1")] else []) ++
  (match since with
   | some s => [("since_id", toString s)]
   | none => [])

/-- The URL of `Mastodon::statuses`, built by `Url::parse_with_params`:
the formatted path, then the query pairs appended behind a `?` that
`query_pairs_mut` writes even when no pair follows. The base is assumed
to be an already-normalized absolute URL, so re-parsing leaves it
unchanged. -/
def statusesUrl (base : String) (id : Nat) (om er : Bool) (since : Option Int) : String :=
  base ++ "/api/v1/accounts/" ++ toString id ++ "/statuses?" ++
    formUrlencode (statusesParams om er since)

/-- The loop of `Mastodon::relationships`: append `id[]=<v>&` per id. -/
def relAppend (ids : List Nat) (url : String) : String :=
  match ids with
  | [] => url
  | i :: rest => relAppend rest (url ++ "id[]=" ++ toString i ++ "&")

/-- The URL of `Mastodon::relationships`: scalar `id=` for a single id
(`ids[0]`), otherwise the `id[]=` loop followed by `String::pop`. -/
def relationshipsUrl (base : String) (ids : List Nat) : String :=
  let url := base ++ "/api/v1/accounts/relationships?"
  if ids.length = 1 then
    url ++ "id=" ++ toString (ids.headD 0)
  else
    rustPop (relAppend ids url)

/-- The endpoint surface of `lib.rs`: one constructor per public
operation of `Mastodon`, carrying the operation's parameters. Numeric
ids (`u64`) are `Nat`, `since_id` (`i64`) is `Int`. The `StatusBuilder`
payload of `new_status` and the form/multipart bodies of the POST
operations never reach the URL or headers and are not modelled. -/
inductive OpCall where
  | verify
  | blocks
  | followRequests
  | mutes
  | notifications
  | reports
  | getHomeTimeline
  | allowFollowRequest (id : Nat)
  | rejectFollowRequest (id : Nat)
  | follows (uri : String)
  | clearNotifications
  | media (file : List Nat)
  | report (accountId : Nat) (statusIds : List Nat) (comment : String)
  | search (q : String) (resolve : Bool)
  | getAccount (id : Nat)
  | followers (id : Nat)
  | following (id : Nat)
  | follow (id : Nat)
  | unfollow (id : Nat)
  | block (id : Nat)
  | unblock (id : Nat)
  | mute (id : Nat)
  | unmute (id : Nat)
  | getNotification (id : Nat)
  | getStatus (id : Nat)
  | getContext (id : Nat)
  | getCard (id : Nat)
  | rebloggedBy (id : Nat)
  | favouritedBy (id : Nat)
  | reblog (id : Nat)
  | unreblog (id : Nat)
  | favourite (id : Nat)
  | unfavourite (id : Nat)
  | deleteStatus (id : Nat)
  | newStatus
  | getPublicTimeline (isLocal : Bool)
  | getTaggedTimeline (hashtag : String) (isLocal : Bool)
  | statuses (id : Nat) (onlyMedia : Bool) (excludeReplies : Bool) (sinceId : Option Int)
  | relationships (ids : List Nat)
  | searchAccounts (q : String)
  | getInstance

/-- The request each operation of `lib.rs` hands to the transport:
`route!`/`route_id!` compose `self.route(concat!("/api/v1/", url))`
(with `format!` substituting the id), the hand-written operations build
their URLs as in the source, and every operation attaches
`self.headers.clone()`. -/
def Mastodon.request (m : Mastodon) : OpCall → Request
  | .verify => ⟨.get, m.route "/api/v1/accounts/verify_credentials", m.headers⟩
  | .blocks => ⟨.get, m.route "/api/v1/blocks", m.headers⟩
  | .followRequests => ⟨.get, m.route "/api/v1/follow_requests", m.headers⟩
  | .mutes => ⟨.get, m.route "/api/v1/mutes", m.headers⟩
  | .notifications => ⟨.get, m.route "/api/v1/notifications", m.headers⟩
  | .reports => ⟨.get, m.route "/api/v1/reports", m.headers⟩
  | .getHomeTimeline => ⟨.get, m.route "/api/v1/timelines/home", m.headers⟩
  | .allowFollowRequest _ =>
    ⟨.post, m.route "/api/v1/accounts/follow_requests/authorize", m.headers⟩
  | .rejectFollowRequest _ =>
    ⟨.post, m.route "/api/v1/accounts/follow_requests/reject", m.headers⟩
  | .follows _ => ⟨.post, m.route "/api/v1/follows", m.headers⟩
  | .clearNotifications => ⟨.post, m.route "/api/v1/notifications/clear", m.headers⟩
  | .media _ => ⟨.post, m.route "/api/v1/media", m.headers⟩
  | .report _ _ _ => ⟨.post, m.route "/api/v1/reports", m.headers⟩
  | .search _ _ => ⟨.post, m.route "/api/v1/search", m.headers⟩
  | .getAccount i => ⟨.get, m.route ("/api/v1/accounts/" ++ toString i), m.headers⟩
  | .followers i =>
    ⟨.get, m.route ("/api/v1/accounts/" ++ toString i ++ "/followers"), m.headers⟩
  | .following i =>
    ⟨.get, m.route ("/api/v1/accounts/" ++ toString i ++ "/following"), m.headers⟩
  | .follow i => ⟨.get, m.route ("/api/v1/accounts/" ++ toString i ++ "/follow"), m.headers⟩
  | .unfollow i =>
    ⟨.get, m.route ("/api/v1/accounts/" ++ toString i ++ "/unfollow"), m.headers⟩
  | .block i => ⟨.get, m.route ("/api/v1/accounts/" ++ toString i ++ "/block"), m.headers⟩
  | .unblock i => ⟨.get, m.route ("/api/v1/accounts/" ++ toString i ++ "/unblock"), m.headers⟩
  | .mute i => ⟨.get, m.route ("/api/v1/accounts/" ++ toString i ++ "/mute"), m.headers⟩
  | .unmute i => ⟨.get, m.route ("/api/v1/accounts/" ++ toString i ++ "/unmute"), m.headers⟩
  | .getNotification i => ⟨.get, m.route ("/api/v1/notifications/" ++ toString i), m.headers⟩
  | .getStatus i => ⟨.get, m.route ("/api/v1/statuses/" ++ toString i), m.headers⟩
  | .getContext i =>
    ⟨.get, m.route ("/api/v1/statuses/" ++ toString i ++ "/context"), m.headers⟩
  | .getCard i => ⟨.get, m.route ("/api/v1/statuses/" ++ toString i ++ "/card"), m.headers⟩
  | .rebloggedBy i =>
    ⟨.get, m.route ("/api/v1/statuses/" ++ toString i ++ "/reblogged_by"), m.headers⟩
  | .favouritedBy i =>
    ⟨.get, m.route ("/api/v1/statuses/" ++ toString i ++ "/favourited_by"), m.headers⟩
  | .reblog i => ⟨.post, m.route ("/api/v1/statuses/" ++ toString i ++ "/reblog"), m.headers⟩
  | .unreblog i =>
    ⟨.post, m.route ("/api/v1/statuses/" ++ toString i ++ "/unreblog"), m.headers⟩
  | .favourite i =>
    ⟨.post, m.route ("/api/v1/statuses/" ++ toString i ++ "/favourite"), m.headers⟩
  | .unfavourite i =>
    ⟨.post, m.route ("/api/v1/statuses/" ++ toString i ++ "/unfavourite"), m.headers⟩
  | .deleteStatus i => ⟨.delete, m.route ("/api/v1/statuses/" ++ toString i), m.headers⟩
  | .newStatus => ⟨.post, m.route "/api/v1/statuses", m.headers⟩
  | .getPublicTimeline l =>
    ⟨.get, m.route "/api/v1/timelines/public" ++ (if l then "?local=1" else ""), m.headers⟩
  | .getTaggedTimeline h l =>
    ⟨.get, m.route "/api/v1/timelines/tag/" ++ h ++ (if l then "?local=1" else ""), m.headers⟩
  | .statuses i om er s => ⟨.get, statusesUrl m.data.base i om er s, m.headers⟩
  | .relationships ids => ⟨.get, relationshipsUrl m.data.base ids, m.headers⟩
  | .searchAccounts q =>
    ⟨.get, m.data.base ++ "/api/v1/accounts/search?q=" ++ q, m.headers⟩
  | .getInstance => ⟨.get, m.route "/api/v1/instance", m.headers⟩

/-- The id-free catalog paths shared verbatim by the spec's §4.3 table
and the amended reading (every case below is a plain path literal or an
id substitution). -/
def specPathCore : OpCall → Option String
  | .verify => some "accounts/verify_credentials"
  | .blocks => some "blocks"
  | .followRequests => some "follow_requests"
  | .mutes => some "mutes"
  | .notifications => some "notifications"
  | .reports => some "reports"
  | .getHomeTimeline => some "timelines/home"
  | .allowFollowRequest _ => some "accounts/follow_requests/authorize"
  | .rejectFollowRequest _ => some "accounts/follow_requests/reject"
  | .follows _ => some "follows"
  | .clearNotifications => some "notifications/clear"
  | .media _ => some "media"
  | .report _ _ _ => some "reports"
  | .search _ _ => some "search"
  | .getAccount i => some ("accounts/" ++ toString i)
  | .followers i => some ("accounts/" ++ toString i ++ "/followers")
  | .following i => some ("accounts/" ++ toString i ++ "/following")
  | .follow i => some ("accounts/" ++ toString i ++ "/follow")
  | .unfollow i => some ("accounts/" ++ toString i ++ "/unfollow")
  | .block i => some ("accounts/" ++ toString i ++ "/block")
  | .unblock i => some ("accounts/" ++ toString i ++ "/unblock")
  | .mute i => some ("accounts/" ++ toString i ++ "/mute")
  | .unmute i => some ("accounts/" ++ toString i ++ "/unmute")
  | .getNotification i => some ("notifications/" ++ toString i)
  | .getStatus i => some ("statuses/" ++ toString i)
  | .getContext i => some ("statuses/" ++ toString i ++ "/context")
  | .getCard i => some ("statuses/" ++ toString i ++ "/card")
  | .rebloggedBy i => some ("statuses/" ++ toString i ++ "/reblogged_by")
  | .favouritedBy i => some ("statuses/" ++ toString i ++ "/favourited_by")
  | .reblog i => some ("statuses/" ++ toString i ++ "/reblog")
  | .unreblog i => some ("statuses/" ++ toString i ++ "/unreblog")
  | .favourite i => some ("statuses/" ++ toString i ++ "/favourite")
  | .unfavourite i => some ("statuses/" ++ toString i ++ "/unfavourite")
  | .deleteStatus i => some ("statuses/" ++ toString i)
  | .newStatus => some "statuses"
  | .getPublicTimeline l => some ("timelines/public" ++ (if l then "?local=1" else ""))
  | .getTaggedTimeline h l =>
    some ("timelines/tag/" ++ h ++ (if l then "?local=1" else ""))
  | .relationships ids =>
    some ("accounts/relationships" ++
      (match ids with
       | [] => ""
       | [i] => "?id=" ++ toString i
       | _ => "?" ++ joinAmp (ids.map (fun i => "id[]=" ++ toString i))))
  | .getInstance => some "instance"
  | _ => none

/-- The catalog URL exactly as the spec (§4.3, §8) words it:
`base ++ "/api/v1/" ++ path`, the id substituted positionally, boolean
parameters as `=1` when true and omitted when false, absent optional
parameters omitted, a one-element id array in scalar form, and
query-string parameter values URL-encoded. -/
def specUrl (base : String) (c : OpCall) : String :=
  base ++ ("/api/v1/" ++
    match specPathCore c with
    | some p => p
    | none =>
      match c with
      | .statuses i om er s =>
        "accounts/" ++ toString i ++ "/statuses" ++
          (if (statusesParams om er s).isEmpty then ""
           else "?" ++ formUrlencode (statusesParams om er s))
      | .searchAccounts q => "accounts/search?q=" ++ encodeComp q
      | _ => "")

/-- The catalog URL as the code actually builds it, amended no further
than the counterexamples force: identical to `specUrl` except that the
account-search query value is spliced verbatim (not URL-encoded) and
the account-statuses URL always carries a `?`, present even when no
parameter was appended. -/
def specUrlAmended (base : String) (c : OpCall) : String :=
  base ++ ("/api/v1/" ++
    match specPathCore c with
    | some p => p
    | none =>
      match c with
      | .statuses i om er s =>
        "accounts/" ++ toString i ++ "/statuses?" ++
          formUrlencode (statusesParams om er s)
      | .searchAccounts q => "accounts/search?q=" ++ q
      | _ => "")

/-- The string accumulated by the `relationships` loop over `ids`. -/
def ampChain : List Nat → String
  | [] => ""
  | i :: rest => "id[]=" ++ toString i ++ "&" ++ ampChain rest

theorem rustPop_amp (s : String) : rustPop (s ++ "&") = s := by
  apply String.ext
  show (s ++ "&").data.dropLast = s.data
  rw [String.data_append]
  exact List.dropLast_concat

theorem rustPop_qmark (s : String) : rustPop (s ++ "?") = s := by
  apply String.ext
  show (s ++ "?").data.dropLast = s.data
  rw [String.data_append]
  exact List.dropLast_concat

theorem relAppend_eq (ids : List Nat) (url : String) :
    relAppend ids url = url ++ ampChain ids := by
  induction ids generalizing url with
  | nil => simp [relAppend, ampChain]
  | cons i rest ih =>
    simp only [relAppend, ampChain]
    rw [ih]
    simp [String.append_assoc]

theorem ampChain_eq (i : Nat) (ids : List Nat) :
    ampChain (i :: ids) =
      joinAmp ((i :: ids).map (fun x => "id[]=" ++ toString x)) ++ "&" := by
  induction ids generalizing i with
  | nil => simp [ampChain, joinAmp, String.append_assoc]
  | cons j rest ih =>
    rw [show ampChain (i :: j :: rest) =
        "id[]=" ++ toString i ++ "&" ++ ampChain (j :: rest) from rfl, ih j]
    simp only [List.map_cons, joinAmp, String.append_assoc]

/-- C3: every operation's outgoing request carries exactly one
`Authorization` header, valued `Bearer <token>` with the token stored in
the credential bundle at construction time. -/
theorem auth_header_exactly_bearer (d : Data) (c : OpCall) :
    ((Mastodon.fromData d).request c).headers =
      [("Authorization", "Bearer " ++ d.token)] ∧
    (((Mastodon.fromData d).request c).headers.countP
      (fun h => h.1 == "Authorization")) = 1 := by
  cases c <;> exact ⟨rfl, rfl⟩

/-- C8: the credential bundle JSON round-trips to an equal bundle, and
its serialization carries exactly the five fields. -/
theorem data_json_roundtrip (d : Data) :
    decodeData (dataToJson d) = .ok d ∧
    jsonKeys (dataToJson d) =
      ["base", "client_id", "client_secret", "redirect", "token"] :=
  ⟨rfl, rfl⟩

theorem relationshipsUrl_nil (base : String) :
    relationshipsUrl base [] = base ++ "/api/v1/accounts/relationships" := by
  have h : base ++ "/api/v1/accounts/relationships?" =
      (base ++ "/api/v1/accounts/relationships") ++ "?" := by
    simp only [String.append_assoc]
    rfl
  show rustPop (relAppend [] (base ++ "/api/v1/accounts/relationships?")) =
    base ++ "/api/v1/accounts/relationships"
  rw [show relAppend [] (base ++ "/api/v1/accounts/relationships?") =
      base ++ "/api/v1/accounts/relationships?" from rfl, h, rustPop_qmark]

theorem relationshipsUrl_single (base : String) (i : Nat) :
    relationshipsUrl base [i] =
      base ++ "/api/v1/accounts/relationships?id=" ++ toString i := by
  simp only [relationshipsUrl, List.length_cons, List.length_nil, Nat.zero_add,
    if_pos, List.headD, String.append_assoc]
  rfl

theorem relationshipsUrl_multi (base : String) (i j : Nat) (rest : List Nat) :
    relationshipsUrl base (i :: j :: rest) =
      base ++ "/api/v1/accounts/relationships?" ++
        joinAmp ((i :: j :: rest).map (fun x => "id[]=" ++ toString x)) := by
  have hlen : ((i :: j :: rest).length = 1) = False := by
    simp [List.length_cons]
  simp only [relationshipsUrl, hlen, if_false]
  rw [relAppend_eq, ampChain_eq, ← String.append_assoc, rustPop_amp]

/-- C10: `relationships` with an empty ids list is dispatched as a GET
whose URL is the bare relationships path — `String::pop` removes the
trailing `?` even when no parameter was appended. -/
theorem relationships_empty_ids (d : Data) :
    ((Mastodon.fromData d).request (.relationships [])).method = .get ∧
    ((Mastodon.fromData d).request (.relationships [])).url =
      d.base ++ "/api/v1/accounts/relationships" :=
  ⟨rfl, relationshipsUrl_nil d.base⟩

/-- C7: `relationships` with a single id uses the scalar `id=` form; with
two or more ids it uses the `id[]=` repetition joined by `&` with no
trailing separator. -/
theorem relationships_query_forms (d : Data) (i j : Nat) (rest : List Nat) :
    ((Mastodon.fromData d).request (.relationships [i])).url =
      d.base ++ "/api/v1/accounts/relationships?id=" ++ toString i ∧
    ((Mastodon.fromData d).request (.relationships (i :: j :: rest))).url =
      d.base ++ "/api/v1/accounts/relationships?" ++
        joinAmp ((i :: j :: rest).map (fun x => "id[]=" ++ toString x)) :=
  ⟨relationshipsUrl_single d.base i, relationshipsUrl_multi d.base i j rest⟩

/-- Counterexample to C4 as stated: for account search with a query
containing a space, the requested URL splices the raw value and differs
from the spec's catalog URL, which URL-encodes it. -/
theorem catalog_url_counterexample :
    ((Mastodon.fromData ⟨"https://x", "", "", "", "t"⟩).request
        (.searchAccounts "a b")).url = "https://x/api/v1/accounts/search?q=a b" ∧
    specUrl "https://x" (.searchAccounts "a b") =
      "https://x/api/v1/accounts/search?q=a+b" ∧
    ((Mastodon.fromData ⟨"https://x", "", "", "", "t"⟩).request
        (.searchAccounts "a b")).url ≠ specUrl "https://x" (.searchAccounts "a b") := by
  refine ⟨by decide, by decide, by decide⟩

/-- C4 amended: for every endpoint in the catalog the requested URL is
the base followed by `/api/v1/` and the endpoint's path with the id
substituted, except that the account-search query value is spliced
verbatim and the account-statuses URL always ends its path with `?`. -/
theorem catalog_url_amended (d : Data) (c : OpCall) :
    ((Mastodon.fromData d).request c).url = specUrlAmended d.base c := by
  cases c
  case relationships ids =>
    rcases ids with _ | ⟨i, _ | ⟨j, rest⟩⟩
    · rw [show ((Mastodon.fromData d).request (.relationships [])).url =
          relationshipsUrl d.base [] from rfl, relationshipsUrl_nil]
      simp only [specUrlAmended, specPathCore, String.append_assoc]
      rfl
    · rw [show ((Mastodon.fromData d).request (.relationships [i])).url =
          relationshipsUrl d.base [i] from rfl, relationshipsUrl_single]
      simp only [specUrlAmended, specPathCore, String.append_assoc]
      rfl
    · rw [show ((Mastodon.fromData d).request (.relationships (i :: j :: rest))).url =
          relationshipsUrl d.base (i :: j :: rest) from rfl, relationshipsUrl_multi]
      simp only [specUrlAmended, specPathCore, String.append_assoc]
      rfl
  all_goals
    first
      | rfl
      | (simp only [Mastodon.request, Mastodon.route, statusesUrl, specUrlAmended,
          specPathCore, String.append_assoc]
         rfl)

/-- C5 is wrong about the code: no operation guards the token. With an
empty token the request is still dispatched, carrying the degenerate
header `Authorization: Bearer `, and the kernel's only error outcomes
are `Api` and `Serde` — `AccessTokenRequired` is never produced, though
the doc comments generated by `route!` promise it. -/
theorem empty_token_no_guard (b ci cs r : String) (T : Type)
    (decT : Json → Except String T) (body : Json) :
    (Mastodon.fromData ⟨b, ci, cs, r, ""⟩).request .verify =
      ⟨.get, b ++ "/api/v1/accounts/verify_credentials",
       [("Authorization", "Bearer ")]⟩ ∧
    handleResponse decT body ≠ .error .accessTokenRequired := by
  constructor
  · rfl
  · unfold handleResponse
    cases hT : decT body with
    | ok t => simp
    | error e =>
      cases hE : decodeApiError body with
      | ok a => simp
      | error e2 => simp

/-- C6: boolean query parameters appear as `name=1` when true and are
absent when false — exactly, as URL equalities, for `local` on the
public and tag timelines, and as presence/absence in the parameter
vector (and in the encoded query) for `only_media` and
`exclude_replies` on account statuses. -/
theorem bool_params_wire (d : Data) (tag : String) (i : Nat) (om er : Bool)
    (s : Option Int) :
    ((Mastodon.fromData d).request (.getPublicTimeline true)).url =
      d.base ++ "/api/v1/timelines/public?local=1" ∧
    ((Mastodon.fromData d).request (.getPublicTimeline false)).url =
      d.base ++ "/api/v1/timelines/public" ∧
    ((Mastodon.fromData d).request (.getTaggedTimeline tag true)).url =
      d.base ++ "/api/v1/timelines/tag/" ++ tag ++ "?local=1" ∧
    ((Mastodon.fromData d).request (.getTaggedTimeline tag false)).url =
      d.base ++ "/api/v1/timelines/tag/" ++ tag ∧
    (∃ rest, formUrlencode (statusesParams true er s) = "only_media=1" ++ rest) ∧
    (∀ v, ("only_media", v) ∉ statusesParams false er s) ∧
    (∃ pre rest, formUrlencode (statusesParams om true s) =
      pre ++ ("exclude_replies=1" ++ rest)) ∧
    (∀ v, ("exclude_replies", v) ∉ statusesParams om false s) ∧
    ((Mastodon.fromData d).request (.statuses i om er s)).url =
      d.base ++ "/api/v1/accounts/" ++ toString i ++ "/statuses?" ++
        formUrlencode (statusesParams om er s) := by
  refine ⟨?_, ?_, ?_, ?_, ?_, ?_, ?_, ?_, rfl⟩
  · show d.base ++ "/api/v1/timelines/public" ++ "?local=1" = _
    simp only [String.append_assoc]
    rfl
  · show d.base ++ "/api/v1/timelines/public" ++ "" = _
    rw [String.append_empty]
  · rfl
  · show d.base ++ "/api/v1/timelines/tag/" ++ tag ++ "" = _
    rw [String.append_empty]
  · cases er with
    | false =>
      cases s with
      | none => exact ⟨"", rfl⟩
      | some v => exact ⟨"&since_id=" ++ encodeComp (toString v), rfl⟩
    | true =>
      cases s with
      | none => exact ⟨"&exclude_replies=1", rfl⟩
      | some v =>
        exact ⟨"&exclude_replies=1&since_id=" ++ encodeComp (toString v), rfl⟩
  · cases er <;> cases s <;> (intro v hv; simp [statusesParams] at hv)
  · cases om with
    | false =>
      cases s with
      | none => exact ⟨"", "", rfl⟩
      | some v => exact ⟨"", "&since_id=" ++ encodeComp (toString v), rfl⟩
    | true =>
      cases s with
      | none => exact ⟨"only_media=1&", "", rfl⟩
      | some v =>
        exact ⟨"only_media=1&", "&since_id=" ++ encodeComp (toString v), rfl⟩
  · cases om <;> cases s <;> (intro v hv; simp [statusesParams] at hv)

/-- Counterexample to C9 as stated: the tag-timeline URL splices the
hashtag raw; the percent-encoded form does not appear. -/
theorem raw_value_counterexample :
    ((Mastodon.fromData ⟨"https://x", "", "", "", "t"⟩).request
        (.getTaggedTimeline "a#b" false)).url =
      "https://x/api/v1/timelines/tag/a#b" ∧
    encodeComp "a#b" = "a%23b" ∧
    ((Mastodon.fromData ⟨"https://x", "", "", "", "t"⟩).request
        (.getTaggedTimeline "a#b" false)).url ≠
      "https://x/api/v1/timelines/tag/" ++ encodeComp "a#b" := by
  refine ⟨by decide, by decide, by decide⟩

/-- C9 amended: only the account-statuses operation URL-encodes its
query parameters (via the form-urlencoded serializer, which does
percent-encode reserved characters); account search and the tag
timeline splice the raw value verbatim into the URL. -/
theorem url_encoding_amended (d : Data) (i : Nat) (om er : Bool)
    (s : Option Int) (q tag : String) :
    ((Mastodon.fromData d).request (.statuses i om er s)).url =
      d.base ++ "/api/v1/accounts/" ++ toString i ++ "/statuses?" ++
        formUrlencode (statusesParams om er s) ∧
    encodeComp "a#b" = "a%23b" ∧
    ((Mastodon.fromData d).request (.searchAccounts q)).url =
      d.base ++ "/api/v1/accounts/search?q=" ++ q ∧
    ((Mastodon.fromData d).request (.getTaggedTimeline tag false)).url =
      d.base ++ "/api/v1/timelines/tag/" ++ tag ∧
    ((Mastodon.fromData d).request (.getTaggedTimeline tag true)).url =
      d.base ++ "/api/v1/timelines/tag/" ++ tag ++ "?local=1" := by
  refine ⟨rfl, by decide, rfl, ?_, rfl⟩
  show d.base ++ "/api/v1/timelines/tag/" ++ tag ++ "" = _
  rw [String.append_empty]
